import Mathlib

/-!
Verification of the `notify` library (a Go client for the freedesktop
notifications D-Bus interface) against its natural-language specification.

The repository contains three library revisions:
* `notification.go` — the oldest revision: `Notification.Actions` is a flat
  `[]string`, `SendNotification` performs no validation of the action list;
* the middle revision (first document of `src/unnamed/part_003`): still a flat
  `[]string` action list, but `SendNotification` rejects odd-length lists
  before calling the bus;
* the current revision (second document of `src/unnamed/part_003`): typed
  `Action{Key, Label}` pairs, caller-supplied `onClosed`/`onAction` handlers,
  a synchronous dispatch loop, and a `group` helper for shutdown.

The definitions below are shallow embeddings of those functions: D-Bus values
are an inductive type, Go `uint32` values are `Nat` (the bus decoder only ever
produces values below 2^32; no arithmetic overflows them here), Go `int32`
casts are explicit wrapping on `Int`, `time.Duration` is `Int` nanoseconds,
and the bus transport is a stub recording which calls were issued.
-/

namespace Notify

/-- A positional D-Bus body value as seen by the Go type switch:
`uint32`, `string`, or anything else (which makes every assertion fail). -/
inductive DBusValue where
  | u32 : Nat → DBusValue
  | str : String → DBusValue
  | other : DBusValue
deriving DecidableEq, Repr

/-- A raw inbound D-Bus signal: symbolic name plus positional body. -/
structure DBusSignal where
  name : String
  body : List DBusValue
deriving DecidableEq, Repr

/-- `signalNotificationClosed` constant from the source. -/
def signalNotificationClosed : String := "org.freedesktop.Notifications.NotificationClosed"

/-- `signalActionInvoked` constant from the source. -/
def signalActionInvoked : String := "org.freedesktop.Notifications.ActionInvoked"

/-- Go type `Reason uint32`: the raw code is kept verbatim. -/
abbrev Reason := Nat

def ReasonExpired : Reason := 1
def ReasonDismissedByUser : Reason := 2
def ReasonClosedByCall : Reason := 3
def ReasonUnknown : Reason := 4

/-- `Reason.String()` from the source: a switch over the four named codes,
with default branch `"Other"`. -/
def reasonString (r : Reason) : String :=
  if r = ReasonExpired then "Expired"
  else if r = ReasonDismissedByUser then "DismissedByUser"
  else if r = ReasonClosedByCall then "ClosedByCall"
  else if r = ReasonUnknown then "Unknown"
  else "Other"

/-- `NotificationClosedSignal` struct from the source. -/
structure NotificationClosedSignal where
  ID : Nat
  Reason : Reason
deriving DecidableEq, Repr

/-- `ActionInvokedSignal` struct from the source. -/
structure ActionInvokedSignal where
  ID : Nat
  ActionKey : String
deriving DecidableEq, Repr

/-- Go expression `body[i].(uint32)`: `some n` on success; `none` when the Go
code would panic (index out of range, or failed type assertion). -/
def assertU32 : Option DBusValue → Option Nat
  | some (.u32 n) => some n
  | _ => none

/-- Go expression `body[i].(string)`: `some s` on success; `none` when the Go
code would panic. -/
def assertStr : Option DBusValue → Option String
  | some (.str s) => some s
  | _ => none

/-- Outcome of one `handleSignal` invocation (current revision).
`crash` stands for a Go runtime panic (failed type assertion or index out of
range inside `handleSignal`), which in the current revision propagates out of
the synchronous dispatch loop. -/
inductive HandleResult where
  | closed : NotificationClosedSignal → HandleResult
  | action : ActionInvokedSignal → HandleResult
  | logged : HandleResult
  | nilSignal : HandleResult
  | crash : HandleResult
deriving DecidableEq, Repr

/-- `notifier.handleSignal` from the current revision: `nil` signals return
early; a `NotificationClosed` name asserts `(uint32, uint32)` on the first two
body positions and invokes `onClosed`; an `ActionInvoked` name asserts
`(uint32, string)` and invokes `onAction`; any other name is logged. A failed
assertion or missing position is a runtime panic (`crash`). -/
def handleSignal : Option DBusSignal → HandleResult
  | none => .nilSignal
  | some s =>
    if s.name = signalNotificationClosed then
      match assertU32 (s.body.get? 0), assertU32 (s.body.get? 1) with
      | some id, some code => .closed ⟨id, code⟩
      | _, _ => .crash
    else if s.name = signalActionInvoked then
      match assertU32 (s.body.get? 0), assertStr (s.body.get? 1) with
      | some id, some key => .action ⟨id, key⟩
      | _, _ => .crash
    else .logged

/-- A handler invocation observed by the caller of `New`. -/
inductive LoopEvent where
  | closedInvoked : NotificationClosedSignal → LoopEvent
  | actionInvoked : ActionInvokedSignal → LoopEvent
deriving DecidableEq, Repr

/-- The handler-invocation trace of the current revision's `eventLoop` run over
a finite sequence of raw signals delivered on the subscription channel, in
delivery order. `handleSignal` is called synchronously, so each recognized
signal appends one invocation; a `crash` kills the loop (second component
`true`) and no further signal is processed. -/
def eventLoopTrace : List DBusSignal → List LoopEvent × Bool
  | [] => ([], false)
  | s :: rest =>
    match handleSignal (some s) with
    | .closed e => ((.closedInvoked e) :: (eventLoopTrace rest).1, (eventLoopTrace rest).2)
    | .action e => ((.actionInvoked e) :: (eventLoopTrace rest).1, (eventLoopTrace rest).2)
    | .crash => ([], true)
    | _ => eventLoopTrace rest

/-- The event a single raw signal decodes to, if any: the specification's
`decodeSignal` restricted to its two recognized outcomes. -/
def recognizedEvent (s : DBusSignal) : Option LoopEvent :=
  match handleSignal (some s) with
  | .closed e => some (.closedInvoked e)
  | .action e => some (.actionInvoked e)
  | _ => none

/-- `Action` struct (current revision): key and label for an action button. -/
structure Action where
  Key : String
  Label : String
deriving DecidableEq, Repr

/-- The action-flattening loop of the current revision's `SendNotification`:
`actions := []string{}; for i := range note.Actions { actions = append(actions, note.Actions[i].Key, note.Actions[i].Label) }`. -/
def flattenActions (as : List Action) : List String :=
  as.foldl (fun acc a => acc ++ [a.Key, a.Label]) []

/-- `time.Millisecond` in nanoseconds (`time.Duration` is int64 nanoseconds). -/
def Millisecond : Int := 1000000

/-- `ExpireTimeoutSetByNotificationServer = time.Millisecond * -1` from the source. -/
def ExpireTimeoutSetByNotificationServer : Int := Millisecond * (-1)

/-- `ExpireTimeoutNever time.Duration = 0` from the source. -/
def ExpireTimeoutNever : Int := 0

/-- Go `time.Duration.Milliseconds()`: `int64(d) / 1e6` with Go integer
division, which truncates toward zero. -/
def durationMilliseconds (d : Int) : Int := Int.sign d * ((d.natAbs / 1000000 : Nat) : Int)

/-- The Go conversion `int32(x)`: wrap into `[-2^31, 2^31)`. -/
def int32cast (x : Int) : Int := (x + 2 ^ 31) % 2 ^ 32 - 2 ^ 31

/-- `durationMs := int32(note.ExpireTimeout.Milliseconds())` from the current
revision's `SendNotification`. -/
def encodeExpireTimeoutMs (d : Int) : Int := int32cast (durationMilliseconds d)

/-- `Notification` struct of the current revision: typed action pairs, opaque
hint bag, `time.Duration` expiration. -/
structure Notification where
  AppName : String
  ReplacesID : Nat
  AppIcon : String
  Summary : String
  Body : String
  Actions : List Action
  Hints : List (String × DBusValue)
  ExpireTimeout : Int
deriving DecidableEq, Repr

/-- The positional argument list handed to the `Notify` bus call. -/
structure NotifyArgs where
  appName : String
  replacesID : Nat
  appIcon : String
  summary : String
  body : String
  actions : List String
  hints : List (String × DBusValue)
  expireTimeoutMs : Int
deriving DecidableEq, Repr

/-- The argument construction performed by the current revision's
`SendNotification` before calling `obj.Call(callNotify, 0, ...)`: flatten the
action pairs and convert the expiration to wrapped int32 milliseconds;
everything else is passed through verbatim. -/
def encodePublish (note : Notification) : NotifyArgs :=
  { appName := note.AppName
    replacesID := note.ReplacesID
    appIcon := note.AppIcon
    summary := note.Summary
    body := note.Body
    actions := flattenActions note.Actions
    hints := note.Hints
    expireTimeoutMs := encodeExpireTimeoutMs note.ExpireTimeout }

/-- `Notification` struct of the two older revisions: flat `[]string` action
list and raw `int32` millisecond timeout. -/
structure NotificationV1 where
  AppName : String
  ReplacesID : Nat
  AppIcon : String
  Summary : String
  Body : String
  Actions : List String
  Hints : List (String × DBusValue)
  ExpireTimeout : Int
deriving DecidableEq, Repr

/-- Stub transport for the `Notify` call: what `obj.Call` + `call.Store`
produce for one issued call (`error` collapses `call.Err` and a `Store`
failure; `ok` is the stored `uint32` id). -/
structure NotifyTransport where
  notifyReply : Except String Nat
deriving Repr

/-- `SendNotification` of the middle revision (first document of
`src/unnamed/part_003`, lines 45-71): rejects an odd-length action list before
calling the bus; otherwise issues exactly one `Notify` call. The second
component counts the `Notify` calls issued. -/
def SendNotificationV1 (conn : NotifyTransport) (note : NotificationV1) :
    Except String Nat × Nat :=
  if note.Actions.length % 2 ≠ 0 then
    (.error "actions must be pairs of (key, label)", 0)
  else
    match conn.notifyReply with
    | .error e => (.error e, 1)
    | .ok ret => (.ok ret, 1)

/-- `SendNotification` of the oldest revision (`src/notification.go`, lines
164-185): no validation at all; the `Notify` call is always issued. The second
component counts the `Notify` calls issued. -/
def SendNotificationV0 (conn : NotifyTransport) (note : NotificationV1) :
    Except String Nat × Nat :=
  match conn.notifyReply with
  | .error e => (.error e, 1)
  | .ok ret => (.ok ret, 1)

/-- Outcome of `conn.AddMatchSignal` in the stub bus used by `New`:
`none` is success, `some e` is the bus error. -/
structure BusEnv where
  addMatchError : Option String
deriving Repr

/-- Side effects `New` may have performed on the bus and runtime by the time it
returns: whether the match rule is registered, whether the signal channel is
registered with the connection, and whether the dispatch goroutine was
spawned via `group.Go`. -/
structure NewEffects where
  matchAdded : Bool
  signalRegistered : Bool
  taskSpawned : Bool
deriving DecidableEq, Repr

/-- The constructed notifier state `New` returns on success (the parts the
claims observe). -/
structure NotifierHandle where
  started : Bool
deriving DecidableEq, Repr

/-- `New` from the current revision (`src/unnamed/part_003` lines 606-635):
build the notifier value, apply options, call `AddMatchSignal`; on error
return `(nil, wrapped error)` at once — `conn.Signal` and `group.Go` have not
run. On success register the signal channel, then spawn the event loop. -/
def New (env : BusEnv) : Except String NotifierHandle × NewEffects :=
  match env.addMatchError with
  | some e =>
      (.error ("error registering for signals in dbus: " ++ e),
       { matchAdded := false, signalRegistered := false, taskSpawned := false })
  | none =>
      (.ok { started := true },
       { matchAdded := true, signalRegistered := true, taskSpawned := true })

/-- Environment of a `notifier.Close` call: the result the bus gives to
`conn.RemoveMatchSignal` (`none` = nil error). -/
structure CloseEnv where
  removeMatchError : Option String
deriving Repr

/-- Observable state of the `group`/`notifier` shutdown path.
`onceDone` is the `sync.Once` guard state; `doneChanClosed` records
`close(g.done)`; `savedErr` is `g.err`; the two counters record how many times
`conn.RemoveSignal` and `conn.RemoveMatchSignal` were executed; `panicked`
would record a `close` of an already-closed channel (a Go runtime panic). -/
structure CloseState where
  onceDone : Bool
  doneChanClosed : Bool
  savedErr : Option String
  removeSignalCount : Nat
  removeMatchCount : Nat
  panicked : Bool
deriving DecidableEq, Repr

/-- State of a freshly constructed notifier, before any `Close`. -/
def freshCloseState : CloseState :=
  { onceDone := false, doneChanClosed := false, savedErr := none,
    removeSignalCount := 0, removeMatchCount := 0, panicked := false }

/-- `notifier.Close` (current revision, lines 776-787) = `group.Close` (lines
822-829) applied to the cleanup closure that removes the signal channel and
the bus match rule. Inside the `sync.Once`: `close(g.done)`; `g.wg.Wait()`
(which returns at once — the WaitGroup counter is already zero, see
`groupGoCounterAfterReturn`); then the cleanup runs and its error is stored in
`g.err`. Outside the `sync.Once` body nothing runs and the stored `g.err` is
returned. -/
def notifierClose (env : CloseEnv) (s : CloseState) : CloseState × Option String :=
  if s.onceDone then
    (s, s.savedErr)
  else
    let s1 : CloseState :=
      { s with onceDone := true,
               doneChanClosed := true,
               panicked := s.panicked || s.doneChanClosed }
    let s2 : CloseState :=
      { s1 with removeSignalCount := s1.removeSignalCount + 1,
                removeMatchCount := s1.removeMatchCount + 1,
                savedErr := env.removeMatchError }
    (s2, env.removeMatchError)

/-- `k` successive `Close()` calls on the same notifier, returning the final
state and the value returned by the last call. -/
def closeN (env : CloseEnv) : Nat → CloseState × Option String
  | 0 => (freshCloseState, none)
  | k + 1 => notifierClose env (closeN env k).1

/-- The `sync.WaitGroup` counter. -/
structure WaitGroup where
  counter : Nat
deriving DecidableEq, Repr

/-- `wg.Add(1)`. -/
def wgAdd (w : WaitGroup) (k : Nat) : WaitGroup := ⟨w.counter + k⟩

/-- `wg.Done()`. -/
def wgDone (w : WaitGroup) : WaitGroup := ⟨w.counter - 1⟩

/-- The WaitGroup operations `group.Go` (lines 813-817) has performed by the
time it returns: `g.wg.Add(1)` runs first, the goroutine is spawned, and the
deferred `g.wg.Done()` runs when `Go` itself returns — not when the spawned
`f` finishes. -/
def groupGoWaitGroupAfterReturn (w : WaitGroup) : WaitGroup := wgDone (wgAdd w 1)

/-- Program counter of the event-loop goroutine: blocked at the `select`, or
exited. -/
inductive WorkerPC where
  | selecting
  | exited
deriving DecidableEq, Repr

/-- Program counter of the caller running `Close()` (first call, inside the
`sync.Once` body): about to `close(g.done)`; about to `g.wg.Wait()`; about to
run the cleanup closure; about to return; returned. -/
inductive MainPC where
  | start
  | waiting
  | cleaning
  | returning
  | returned
deriving DecidableEq, Repr

/-- Globally observable events of the shutdown race. -/
inductive SysEvent where
  | handlerRun : LoopEvent → SysEvent
  | closeReturned : SysEvent
deriving DecidableEq, Repr

/-- Joint state of the two tasks: the WaitGroup counter as left by `group.Go`,
the `done` channel, the buffered signal channel contents, both program
counters, and the observable event log. -/
structure Sys where
  wg : Nat
  doneChanClosed : Bool
  queue : List DBusSignal
  worker : WorkerPC
  main : MainPC
  log : List SysEvent
deriving DecidableEq, Repr

/-- Scheduler labels: let the worker take its `select` signal-receive branch,
let the worker take its `select` done branch, or let the `Close` caller run
its next step. -/
inductive Sched where
  | workerRecv
  | workerDone
  | mainStep
deriving DecidableEq, Repr

/-- One interleaving step. The worker at the `select` may receive a buffered
signal (Go's `select` picks any ready case, even when `done` is also ready)
and then runs `handleSignal` synchronously; or it may take the `done` branch
once `close(g.done)` has happened and exit — without touching the WaitGroup,
whose `Done` already ran inside `group.Go`. The `Close` caller closes `done`,
passes `wg.Wait()` whenever the counter is zero, runs the cleanup, and
returns. Steps that are not enabled leave the state unchanged. -/
def step (s : Sys) : Sched → Sys
  | .workerRecv =>
    match s.worker, s.queue with
    | .selecting, sig :: rest =>
      match handleSignal (some sig) with
      | .closed e => { s with queue := rest, log := s.log ++ [.handlerRun (.closedInvoked e)] }
      | .action e => { s with queue := rest, log := s.log ++ [.handlerRun (.actionInvoked e)] }
      | .crash => { s with queue := rest, worker := .exited }
      | _ => { s with queue := rest }
    | _, _ => s
  | .workerDone =>
    match s.worker with
    | .selecting => if s.doneChanClosed then { s with worker := .exited } else s
    | .exited => s
  | .mainStep =>
    match s.main with
    | .start => { s with doneChanClosed := true, main := .waiting }
    | .waiting => if s.wg = 0 then { s with main := .cleaning } else s
    | .cleaning => { s with main := .returning }
    | .returning => { s with main := .returned, log := s.log ++ [.closeReturned] }
    | .returned => s

/-- Run a whole schedule. -/
def runSched (s : Sys) (sch : List Sched) : Sys := sch.foldl step s

/-- The state right after `New` has returned and `Close()` is entered, with
one decodable `ActionInvoked` signal still buffered in `n.signal`: the
WaitGroup counter is what `group.Go` left behind. -/
def c1Start : Sys :=
  { wg := (groupGoWaitGroupAfterReturn ⟨0⟩).counter
    doneChanClosed := false
    queue := [⟨signalActionInvoked, [.u32 7, .str "open"]⟩]
    worker := .selecting
    main := .start
    log := [] }

/-! ## Helper lemmas -/

/-- The action-flattening loop is the interleaving of the pairs. -/
theorem flattenActions_eq_bind (as : List Action) :
    flattenActions as = as.bind fun a => [a.Key, a.Label] := by
  have h : ∀ (l : List Action) (acc : List String),
      l.foldl (fun acc a => acc ++ [a.Key, a.Label]) acc
        = acc ++ l.bind fun a => [a.Key, a.Label] := by
    intro l
    induction l with
    | nil => intro acc; simp
    | cons a rest ih => intro acc; simp [ih]
  simpa using h as []

theorem flattenActions_cons (a : Action) (rest : List Action) :
    flattenActions (a :: rest) = a.Key :: a.Label :: flattenActions rest := by
  simp [flattenActions_eq_bind]

theorem flattenActions_length (as : List Action) :
    (flattenActions as).length = 2 * as.length := by
  induction as with
  | nil => rfl
  | cons a rest ih =>
    rw [flattenActions_cons]
    simp only [List.length_cons, ih]
    omega

theorem flattenActions_get (as : List Action) (i : Nat) :
    (flattenActions as).get? (2 * i) = (as.get? i).map Action.Key
    ∧ (flattenActions as).get? (2 * i + 1) = (as.get? i).map Action.Label := by
  induction as generalizing i with
  | nil => simp [flattenActions]
  | cons a rest ih =>
    cases i with
    | zero => simp [flattenActions_cons]
    | succ j =>
      have e1 : 2 * (j + 1) = 2 * j + 1 + 1 := by ring
      rw [flattenActions_cons, e1]
      constructor
      · simpa using (ih j).1
      · simpa using (ih j).2

/-- Without any panic-inducing signal, the dispatch loop's trace is exactly
the delivery-ordered decoded events. -/
theorem eventLoopTrace_eq_filterMap (sigs : List DBusSignal)
    (h : ∀ s ∈ sigs, handleSignal (some s) ≠ .crash) :
    eventLoopTrace sigs = (sigs.filterMap recognizedEvent, false) := by
  induction sigs with
  | nil => rfl
  | cons s rest ih =>
    have hs : handleSignal (some s) ≠ .crash := h s (by simp)
    have hrest : ∀ x ∈ rest, handleSignal (some x) ≠ .crash := by
      intro x hx
      exact h x (by simp [hx])
    rcases hh : handleSignal (some s) with e | e | _ | _ | _
    · simp [eventLoopTrace, recognizedEvent, hh, ih hrest]
    · simp [eventLoopTrace, recognizedEvent, hh, ih hrest]
    · simp [eventLoopTrace, recognizedEvent, hh, ih hrest]
    · simp [eventLoopTrace, recognizedEvent, hh, ih hrest]
    · exact absurd hh hs

/-- The `sync.Once` guard collapses any number of further `Close()` calls:
`k + 1` consecutive calls end in the very state-and-result of a single call. -/
theorem closeN_succ_eq_first (env : CloseEnv) (m : Nat) :
    closeN env (m + 1) = closeN env 1 := by
  induction m with
  | zero => rfl
  | succ j ih =>
    show notifierClose env (closeN env (j + 1)).1 = closeN env 1
    rw [ih]
    simp [closeN, notifierClose, freshCloseState]

/-! ## Claim theorems -/

/-- C1 (code bug): `Close()` does not in fact wait for the dispatch loop.
`group.Go` runs `defer g.wg.Done()` in `Go` itself, so the WaitGroup counter
is back to its old value the moment `Go` returns (second conjunct); with one
decodable signal still buffered, the schedule that runs `Close()` to
completion first is a valid interleaving — `wg.Wait()` passes at counter zero
— and the handler invocation for the queued signal happens strictly after
`Close()` has returned (first conjunct), while the worker is still at its
`select` when `Close()` returns (remaining conjuncts). This contradicts the
claim and the source's own comments on `group.Go`/`group.Close`
("g.Close waits for f to finish before returning"). -/
theorem close_returns_before_loop_exit :
    (runSched c1Start [.mainStep, .mainStep, .mainStep, .mainStep, .workerRecv]).log
      = [.closeReturned, .handlerRun (.actionInvoked ⟨7, "open"⟩)]
    ∧ (∀ w : WaitGroup, groupGoWaitGroupAfterReturn w = w)
    ∧ (runSched c1Start [.mainStep, .mainStep, .mainStep, .mainStep]).main = .returned
    ∧ (runSched c1Start [.mainStep, .mainStep, .mainStep, .mainStep]).worker = .selecting
    ∧ (runSched c1Start [.mainStep, .mainStep, .mainStep, .mainStep]).queue ≠ [] := by
  refine ⟨by decide, ?_, by decide, by decide, by decide⟩
  intro w
  cases w with
  | mk c => simp [groupGoWaitGroupAfterReturn, wgAdd, wgDone]

/-- C2 (counterexample): delivering a malformed `NotificationClosed` signal
followed by a well-formed one panics the synchronous dispatch loop at the
first message, so the recognized second message is never delivered to
`onClosed` — the handlers are not invoked "exactly once per recognized
signal". -/
theorem ordered_delivery_crash_counterexample :
    (eventLoopTrace
        [⟨signalNotificationClosed, [.str "bogus"]⟩,
         ⟨signalNotificationClosed, [.u32 7, .u32 2]⟩]).1 = []
    ∧ (eventLoopTrace
        [⟨signalNotificationClosed, [.str "bogus"]⟩,
         ⟨signalNotificationClosed, [.u32 7, .u32 2]⟩]).2 = true
    ∧ recognizedEvent ⟨signalNotificationClosed, [.u32 7, .u32 2]⟩
        = some (.closedInvoked ⟨7, 2⟩) := by
  refine ⟨by decide, by decide, by decide⟩

/-- C2 (amended): for every finite sequence of raw signals none of which makes
`handleSignal` panic, the dispatch loop invokes the handlers exactly once per
recognized signal, in delivery order — the trace is the `filterMap` of the
decoder over the input, and the loop does not crash. In particular,
NotificationClosed(id=7, reason=2) followed by ActionInvoked(id=7, key="open")
invokes `onClosed` with `{ID := 7, Reason := DismissedByUser}` and then
`onAction` with `{ID := 7, ActionKey := "open"}`, each exactly once. -/
theorem ordered_exactly_once_delivery (sigs : List DBusSignal)
    (h : ∀ s ∈ sigs, handleSignal (some s) ≠ .crash) :
    eventLoopTrace sigs = (sigs.filterMap recognizedEvent, false)
    ∧ eventLoopTrace
        [⟨signalNotificationClosed, [.u32 7, .u32 ReasonDismissedByUser]⟩,
         ⟨signalActionInvoked, [.u32 7, .str "open"]⟩]
      = ([.closedInvoked ⟨7, ReasonDismissedByUser⟩, .actionInvoked ⟨7, "open"⟩], false) := by
  exact ⟨eventLoopTrace_eq_filterMap sigs h, by decide⟩

/-- C2 (witness for the amended theorem). -/
theorem ordered_exactly_once_delivery_witness :
    eventLoopTrace
        [⟨signalNotificationClosed, [.u32 7, .u32 ReasonDismissedByUser]⟩,
         ⟨signalActionInvoked, [.u32 7, .str "open"]⟩]
      = ([⟨signalNotificationClosed, [.u32 7, .u32 ReasonDismissedByUser]⟩,
          ⟨signalActionInvoked, [.u32 7, .str "open"]⟩].filterMap recognizedEvent, false) :=
  (ordered_exactly_once_delivery
    [⟨signalNotificationClosed, [.u32 7, .u32 ReasonDismissedByUser]⟩,
     ⟨signalActionInvoked, [.u32 7, .str "open"]⟩] (by decide)).1

/-- C3 (confirmed): a second `Close()` on the same notifier returns the very
same state and error as the first, the cleanup operations each ran exactly
once, and no channel was closed twice (no panic). Holds for every bus outcome
of the deregistration call. -/
theorem close_idempotent (env : CloseEnv) :
    notifierClose env (notifierClose env freshCloseState).1
      = ((notifierClose env freshCloseState).1, (notifierClose env freshCloseState).2)
    ∧ (notifierClose env freshCloseState).1.removeSignalCount = 1
    ∧ (notifierClose env freshCloseState).1.removeMatchCount = 1
    ∧ (notifierClose env freshCloseState).1.doneChanClosed = true
    ∧ (notifierClose env freshCloseState).1.panicked = false
    ∧ ∀ k : Nat, closeN env (k + 1) = closeN env 1 := by
  refine ⟨?_, ?_, ?_, ?_, ?_, closeN_succ_eq_first env⟩ <;>
    simp [notifierClose, freshCloseState]

/-- C4 (counterexample): the oldest revision's `SendNotification`
(`src/notification.go` lines 164-185, named in the claim's sources) performs
no validation: with the odd action list `["open"]` it issues the `Notify` bus
call (call count 1) and returns the server reply with no error. -/
theorem odd_actions_unvalidated_counterexample :
    (SendNotificationV0 ⟨.ok 42⟩
        { AppName := "app", ReplacesID := 0, AppIcon := "", Summary := "s",
          Body := "b", Actions := ["open"], Hints := [], ExpireTimeout := 0 }).2 = 1
    ∧ (SendNotificationV0 ⟨.ok 42⟩
        { AppName := "app", ReplacesID := 0, AppIcon := "", Summary := "s",
          Body := "b", Actions := ["open"], Hints := [], ExpireTimeout := 0 }).1 = .ok 42 := by
  exact ⟨rfl, rfl⟩

/-- C4 (amended): the middle revision's `SendNotification` (part_003 lines
45-71) rejects every odd-length flat action list with an error before any
`Notify` call is issued; the current revision's typed pairs always flatten to
an even-length list, so no odd input is expressible there. The oldest
revision (`notification.go`) performs no such validation. -/
theorem odd_actions_rejected (conn : NotifyTransport) (note : NotificationV1)
    (h : note.Actions.length % 2 = 1) :
    (SendNotificationV1 conn note).1 = .error "actions must be pairs of (key, label)"
    ∧ (SendNotificationV1 conn note).2 = 0
    ∧ ∀ n : Notification, (encodePublish n).actions.length % 2 = 0 := by
  have hodd : note.Actions.length % 2 ≠ 0 := by omega
  refine ⟨?_, ?_, ?_⟩
  · simp [SendNotificationV1, hodd]
  · simp [SendNotificationV1, hodd]
  · intro n
    have := flattenActions_length n.Actions
    simp only [encodePublish]
    omega

/-- C4 (witness for the amended theorem). -/
theorem odd_actions_rejected_witness :
    (SendNotificationV1 ⟨.ok 42⟩
        { AppName := "app", ReplacesID := 0, AppIcon := "", Summary := "s",
          Body := "b", Actions := ["open"], Hints := [], ExpireTimeout := 0 }).1
      = .error "actions must be pairs of (key, label)"
    ∧ (SendNotificationV1 ⟨.ok 42⟩
        { AppName := "app", ReplacesID := 0, AppIcon := "", Summary := "s",
          Body := "b", Actions := ["open"], Hints := [], ExpireTimeout := 0 }).2 = 0
    ∧ ∀ n : Notification, (encodePublish n).actions.length % 2 = 0 :=
  odd_actions_rejected ⟨.ok 42⟩
    { AppName := "app", ReplacesID := 0, AppIcon := "", Summary := "s",
      Body := "b", Actions := ["open"], Hints := [], ExpireTimeout := 0 } (by decide)

/-- C5 (counterexample): a `NotificationClosed` signal with the unmapped
reason code 99 decodes without error, but the event's `Reason` is the raw
code 99 itself — not `ReasonUnknown` (= 4); its string rendering is
`"Other"`, not `"Unknown"`. -/
theorem unmapped_reason_counterexample :
    handleSignal (some ⟨signalNotificationClosed, [.u32 7, .u32 99]⟩)
      = .closed ⟨7, 99⟩
    ∧ (99 : Reason) ≠ ReasonUnknown
    ∧ reasonString 99 = "Other" := by
  refine ⟨by decide, by decide, by decide⟩

/-- C5 (amended): decoding a `NotificationClosed` signal with a well-typed
body never produces an error: it always yields a closed event, whose `Reason`
preserves the raw code verbatim; codes outside 1..4 render as `"Other"` via
`Reason.String()` (the "other/unknown" bucket), not as the `ReasonUnknown`
value. -/
theorem unmapped_reason_preserved (id code : Nat)
    (h1 : code ≠ 1) (h2 : code ≠ 2) (h3 : code ≠ 3) (h4 : code ≠ 4) :
    handleSignal (some ⟨signalNotificationClosed, [.u32 id, .u32 code]⟩)
      = .closed ⟨id, code⟩
    ∧ reasonString code = "Other" := by
  constructor
  · simp [handleSignal, assertU32]
  · simp [reasonString, ReasonExpired, ReasonDismissedByUser, ReasonClosedByCall,
      ReasonUnknown, h1, h2, h3, h4]

/-- C5 (witness for the amended theorem). -/
theorem unmapped_reason_preserved_witness :
    handleSignal (some ⟨signalNotificationClosed, [.u32 7, .u32 99]⟩)
      = .closed ⟨7, 99⟩
    ∧ reasonString 99 = "Other" :=
  unmapped_reason_preserved 7 99 (by decide) (by decide) (by decide) (by decide)

/-- C6 (counterexample): a signal carrying a recognized name but a body that
does not match the expected positional shape crashes the handler: with an
empty body the `NotificationClosed` branch panics (index out of range), and
with a wrongly-typed first field the `ActionInvoked` branch panics (failed
type assertion) — contradicting "does not crash or panic" for malformed
bodies. -/
theorem malformed_body_crash_counterexample :
    handleSignal (some ⟨signalNotificationClosed, []⟩) = .crash
    ∧ handleSignal (some ⟨signalActionInvoked, [.str "x", .str "open"]⟩) = .crash := by
  refine ⟨by decide, by decide⟩

/-- C6 (amended): a signal whose name is neither `NotificationClosed` nor
`ActionInvoked` is logged and dropped — neither handler is invoked and the
loop does not crash — and a `nil` signal is ignored; but a recognized-name
signal with a malformed body panics the dispatch loop (see the
counterexample). -/
theorem unknown_signal_ignored :
    (∀ s : DBusSignal, s.name ≠ signalNotificationClosed →
        s.name ≠ signalActionInvoked → handleSignal (some s) = .logged)
    ∧ handleSignal none = .nilSignal := by
  constructor
  · intro s h1 h2
    simp [handleSignal, h1, h2]
  · rfl

/-- C6 (witness for the amended theorem). -/
theorem unknown_signal_ignored_witness :
    handleSignal (some ⟨"org.freedesktop.DBus.NameAcquired", [.str "x"]⟩) = .logged :=
  unknown_signal_ignored.1 ⟨"org.freedesktop.DBus.NameAcquired", [.str "x"]⟩
    (by decide) (by decide)

/-- C7 (confirmed): the expiration policy is encoded to whole milliseconds:
`ExpireTimeoutNever` (0) encodes to 0, `ExpireTimeoutSetByNotificationServer`
(-1ms) encodes to -1, and an explicit 1500ms duration encodes to 1500. -/
theorem expiration_encoding :
    encodeExpireTimeoutMs ExpireTimeoutNever = 0
    ∧ encodeExpireTimeoutMs ExpireTimeoutSetByNotificationServer = -1
    ∧ encodeExpireTimeoutMs (1500 * Millisecond) = 1500 := by
  refine ⟨by decide, by decide, by decide⟩

/-- C8 (confirmed): for every Notification with `n` action pairs, the encoded
`Notify` arguments carry a flat action list of exactly `2 × n` strings in the
interleaved order key₀, label₀, key₁, label₁, …, preserving pair order: the
string at position `2·i` is the `i`-th key and the string at position
`2·i + 1` is the `i`-th label. -/
theorem publish_actions_flat (note : Notification) :
    (encodePublish note).actions = note.Actions.bind (fun a => [a.Key, a.Label])
    ∧ (encodePublish note).actions.length = 2 * note.Actions.length
    ∧ ∀ i : Nat,
        (encodePublish note).actions.get? (2 * i) = (note.Actions.get? i).map Action.Key
        ∧ (encodePublish note).actions.get? (2 * i + 1)
            = (note.Actions.get? i).map Action.Label := by
  refine ⟨?_, ?_, ?_⟩
  · simpa [encodePublish] using flattenActions_eq_bind note.Actions
  · simpa [encodePublish] using flattenActions_length note.Actions
  · intro i
    simpa [encodePublish] using flattenActions_get note.Actions i

/-- C9 (confirmed): when registering the bus-level signal match fails during
construction, `New` returns the wrapped error and no notifier, and neither the
signal channel registration nor the background dispatch task has happened —
no partial state is left behind. -/
theorem new_fails_fast (env : BusEnv) (e : String)
    (h : env.addMatchError = some e) :
    (New env).1 = .error ("error registering for signals in dbus: " ++ e)
    ∧ (New env).2.taskSpawned = false
    ∧ (New env).2.signalRegistered = false
    ∧ (New env).2.matchAdded = false := by
  simp [New, h]

/-- C9 (witness). -/
theorem new_fails_fast_witness :
    (New ⟨some "access denied"⟩).1
      = .error ("error registering for signals in dbus: " ++ "access denied")
    ∧ (New ⟨some "access denied"⟩).2.taskSpawned = false
    ∧ (New ⟨some "access denied"⟩).2.signalRegistered = false
    ∧ (New ⟨some "access denied"⟩).2.matchAdded = false :=
  new_fails_fast ⟨some "access denied"⟩ "access denied" rfl

/-- C10 (confirmed): after the first `Close()`, every further `Close()` call
performs no cleanup work — the signal-channel removal and the bus-match
deregistration each ran exactly once, during the first call — returns exactly
the error value the first call produced (the deregistration result, `none`
for nil), and a failed deregistration is never retried: the whole
state-and-result of `k + 1` consecutive calls equals that of a single call,
for every bus outcome `env.removeMatchError`. -/
theorem close_cleanup_at_most_once (env : CloseEnv) (k : Nat) :
    closeN env (k + 1) = closeN env 1
    ∧ (closeN env (k + 1)).1.removeSignalCount = 1
    ∧ (closeN env (k + 1)).1.removeMatchCount = 1
    ∧ (closeN env (k + 1)).2 = env.removeMatchError := by
  refine ⟨closeN_succ_eq_first env k, ?_, ?_, ?_⟩ <;> rw [closeN_succ_eq_first env k] <;>
    simp [closeN, notifierClose, freshCloseState]

end Notify
